import Mathlib

/-!
Shallow embedding of `controllers/kogitoruntime_controller.go` from the
kogito-cloud-operator repository: the `Reconcile` control loop of the
`KogitoRuntimeReconciler`, its `setupRBAC` bootstrap, and the watch
predicate installed in `SetupWithManager`.

The external collaborators (`infrastructure.FetchKogitoRuntimeService`,
`kubernetes.ResourceC(...).CreateIfNotExists`,
`infrastructure.MountProtoBufConfigMapOnDataIndex`,
`services.NewServiceDeployer(...).Deploy`) are modelled as an
explicit record of state-transforming functions over an abstract cluster
state `σ`; the loop itself is translated line by line, and additionally
records the trace of collaborator calls it issues, so that ordering and
no-call properties can be stated.
-/

namespace KogitoRuntime

/-- A Go `error` value (identity matters: errors are propagated unchanged). -/
structure GoError where
  msg : String
  deriving DecidableEq, Repr

/-- Model of `ctrl.Request`: the (name, namespace) reconciliation key.
`namespace` is a Lean keyword, so the field is called `nspace`. -/
structure Request where
  name : String
  nspace : String
  deriving DecidableEq, Repr

/-- Model of `ctrl.Result`: requeue flag and requeue delay.
`RequeueAfter` is a Go `time.Duration` (int64), modelled as `Int`. -/
structure CtrlResult where
  Requeue : Bool
  RequeueAfter : Int
  deriving DecidableEq, Repr

/-- The zero `ctrl.Result`, as produced by `var result ctrl.Result`. -/
def zeroResult : CtrlResult := ⟨false, 0⟩

/-- Modelled from the spec: `v1beta1.QuarkusRuntimeType`, the runtime-type
constant discriminating the Quarkus flavor (the `api/v1beta1` package is
not part of the embedded source file; the spec calls it one of two
supported runtime flavors of the runtime-type field). -/
def QuarkusRuntimeType : String := "quarkus"

/-- The fetched `v1beta1.KogitoRuntime` instance: identity plus the
runtime-type field read via `instance.GetSpec().GetRuntime()`. -/
structure KogitoRuntimeInstance where
  name : String
  nspace : String
  runtime : String
  deriving DecidableEq, Repr

/-- The kind of an auxiliary access-control object. -/
inductive RBACKind where
  | role
  | serviceAccount
  | roleBinding
  deriving DecidableEq, Repr

/-- An auxiliary access-control object, scoped to a namespace. -/
structure RBACObject where
  kind : RBACKind
  nspace : String
  deriving DecidableEq, Repr

/-- Modelled from the spec: `getServiceViewerRole(namespace)` builds the
service viewer role for the given namespace (helper lives outside the
embedded file; per the spec it is namespace-scoped and only its identity
matters to the loop). -/
def getServiceViewerRole (nspace : String) : RBACObject :=
  ⟨RBACKind.role, nspace⟩

/-- Modelled from the spec: `getServiceViewerServiceAccount(namespace)`. -/
def getServiceViewerServiceAccount (nspace : String) : RBACObject :=
  ⟨RBACKind.serviceAccount, nspace⟩

/-- Modelled from the spec: `getServiceViewerRoleBinding(namespace)`. -/
def getServiceViewerRoleBinding (nspace : String) : RBACObject :=
  ⟨RBACKind.roleBinding, nspace⟩

/-- Modelled from the spec: `infrastructure.LatestTag`, the default image
tag used when the declaration does not pin one. -/
def LatestTag : String := "latest"

/-- Model of `services.HealthCheckProbeType`: the two probe variants named in the
source (`services.TCPHealthCheckProbe`, `services.QuarkusHealthCheckProbe`). -/
inductive HealthCheckProbeType where
  | TCPHealthCheckProbe
  | QuarkusHealthCheckProbe
  deriving DecidableEq, Repr

/-- Model of `services.ServiceDefinition` as populated by `Reconcile` (the three
injected hook fields `OnDeploymentCreate`, `OnObjectsCreate`,
`OnGetComparators` are function values passed opaquely to the delegate and
carry no data the loop inspects, so they are not modelled). -/
structure ServiceDefinition where
  Request : Request
  DefaultImageTag : String
  SingleReplica : Bool
  CustomService : Bool
  HealthCheckProbe : HealthCheckProbeType
  deriving DecidableEq, Repr

/-- One collaborator call issued by the loop, recorded in order. -/
inductive Call where
  | fetchCall (name nspace : String)
  | createCall (obj : RBACObject)
  | mountCall (inst : KogitoRuntimeInstance)
  | deployCall (defn : ServiceDefinition) (inst : KogitoRuntimeInstance)
  deriving DecidableEq, Repr

/-- The external collaborators, as state transformers over an abstract
cluster state `σ`.  `fetch` is a read (it returns no new state);
the mutating collaborators return the successor state. -/
structure Collab (σ : Type) where
  fetch : σ → String → String → Except GoError (Option KogitoRuntimeInstance)
  createIfNotExists : σ → RBACObject → σ × Option GoError
  mountProtoBufConfigMapOnDataIndex :
    σ → KogitoRuntimeInstance → σ × Option GoError
  deploy : σ → ServiceDefinition → KogitoRuntimeInstance → σ × Except GoError Int

/-- Translation of `setupRBAC(namespace)`: three sequential `CreateIfNotExists` calls —
role, then service account, then role binding — returning the first error
immediately.  Also returns the trace of create calls issued. -/
def setupRBAC {σ : Type} (c : Collab σ) (s : σ) (nspace : String) :
    σ × Option GoError × List Call :=
  match c.createIfNotExists s (getServiceViewerRole nspace) with
  | (s₁, some e) => (s₁, some e, [Call.createCall (getServiceViewerRole nspace)])
  | (s₁, none) =>
    match c.createIfNotExists s₁ (getServiceViewerServiceAccount nspace) with
    | (s₂, some e) =>
      (s₂, some e,
        [Call.createCall (getServiceViewerRole nspace),
         Call.createCall (getServiceViewerServiceAccount nspace)])
    | (s₂, none) =>
      match c.createIfNotExists s₂ (getServiceViewerRoleBinding nspace) with
      | (s₃, some e) =>
        (s₃, some e,
          [Call.createCall (getServiceViewerRole nspace),
           Call.createCall (getServiceViewerServiceAccount nspace),
           Call.createCall (getServiceViewerRoleBinding nspace)])
      | (s₃, none) =>
        (s₃, none,
          [Call.createCall (getServiceViewerRole nspace),
           Call.createCall (getServiceViewerServiceAccount nspace),
           Call.createCall (getServiceViewerRoleBinding nspace)])

/-- The health-check probe selected by `Reconcile`:
`services.TCPHealthCheckProbe` unless
`instance.GetSpec().GetRuntime() == v1beta1.QuarkusRuntimeType`. -/
def healthCheckProbeFor (inst : KogitoRuntimeInstance) : HealthCheckProbeType :=
  if inst.runtime = QuarkusRuntimeType then
    HealthCheckProbeType.QuarkusHealthCheckProbe
  else
    HealthCheckProbeType.TCPHealthCheckProbe

/-- The `services.ServiceDefinition` literal built inside `Reconcile`. -/
def serviceDefinition (req : Request) (inst : KogitoRuntimeInstance) :
    ServiceDefinition :=
  { Request := req
    DefaultImageTag := LatestTag
    SingleReplica := false
    CustomService := true
    HealthCheckProbe := healthCheckProbeFor inst }

/-- The outcome of one `Reconcile` pass: the successor cluster state, the
returned `ctrl.Result`, the returned error, and the ordered trace of
collaborator calls issued. -/
structure ReconcileOut (σ : Type) where
  state : σ
  result : CtrlResult
  err : Option GoError
  trace : List Call
  deriving Repr

/-- Translation of `KogitoRuntimeReconciler.Reconcile(req)`: fetch, absence short-circuit,
`setupRBAC`, proto-buf mount propagation, delegate deploy, requeue
interpretation, translated control-path by control-path from the source. -/
def reconcile {σ : Type} (c : Collab σ) (s : σ) (req : Request) :
    ReconcileOut σ :=
  match c.fetch s req.name req.nspace with
  | Except.error e =>
    ⟨s, zeroResult, some e, [Call.fetchCall req.name req.nspace]⟩
  | Except.ok none =>
    ⟨s, zeroResult, none, [Call.fetchCall req.name req.nspace]⟩
  | Except.ok (some inst) =>
    match setupRBAC c s req.nspace with
    | (s₁, some e, t₁) =>
      ⟨s₁, zeroResult, some e, Call.fetchCall req.name req.nspace :: t₁⟩
    | (s₁, none, t₁) =>
      match c.mountProtoBufConfigMapOnDataIndex s₁ inst with
      | (s₂, some e) =>
        ⟨s₂, zeroResult, some e,
          Call.fetchCall req.name req.nspace :: t₁ ++ [Call.mountCall inst]⟩
      | (s₂, none) =>
        match c.deploy s₂ (serviceDefinition req inst) inst with
        | (s₃, Except.error e) =>
          ⟨s₃, zeroResult, some e,
            Call.fetchCall req.name req.nspace :: t₁ ++
              [Call.mountCall inst,
               Call.deployCall (serviceDefinition req inst) inst]⟩
        | (s₃, Except.ok requeueAfter) =>
          if 0 < requeueAfter then
            ⟨s₃, ⟨true, requeueAfter⟩, none,
              Call.fetchCall req.name req.nspace :: t₁ ++
                [Call.mountCall inst,
                 Call.deployCall (serviceDefinition req inst) inst]⟩
          else
            ⟨s₃, zeroResult, none,
              Call.fetchCall req.name req.nspace :: t₁ ++
                [Call.mountCall inst,
                 Call.deployCall (serviceDefinition req inst) inst]⟩

/-- Object metadata as seen by the watch predicate: only the
deletion-timestamp field matters.  `metav1.Time.IsZero()` holds for a nil
pointer or the zero time, modelled as `Option Nat`. -/
structure ObjectMeta where
  deletionTimestamp : Option Nat
  deriving DecidableEq, Repr

/-- Model of `GetDeletionTimestamp().IsZero()`. -/
def ObjectMeta.deletionTimestampIsZero (m : ObjectMeta) : Bool :=
  match m.deletionTimestamp with
  | none => true
  | some t => t == 0

/-- A watch event for the Runtime Declaration type. -/
inductive Event where
  | create (meta : ObjectMeta)
  | update (metaOld metaNew : ObjectMeta)
  | delete (meta : ObjectMeta)
  | generic (meta : ObjectMeta)
  deriving DecidableEq, Repr

/-- Model of `predicate.Funcs` of controller-runtime: a record of optional
per-event-kind callbacks. -/
structure PredicateFuncs where
  CreateFunc : Option (ObjectMeta → Bool)
  UpdateFunc : Option (ObjectMeta → ObjectMeta → Bool)
  DeleteFunc : Option (ObjectMeta → Bool)
  GenericFunc : Option (ObjectMeta → Bool)

/-- Evaluation of a `predicate.Funcs` on an event, per the
controller-runtime library contract: each unset callback admits the
event (returns `true`). -/
def PredicateFuncs.eval (p : PredicateFuncs) : Event → Bool
  | Event.create m =>
    match p.CreateFunc with
    | some f => f m
    | none => true
  | Event.update mo mn =>
    match p.UpdateFunc with
    | some f => f mo mn
    | none => true
  | Event.delete m =>
    match p.DeleteFunc with
    | some f => f m
    | none => true
  | Event.generic m =>
    match p.GenericFunc with
    | some f => f m
    | none => true

/-- The predicate installed by `SetupWithManager`: delete events are
dropped, update events pass only when the new object's deletion timestamp
is zero, create and generic callbacks are left unset. -/
def kogitoRuntimePred : PredicateFuncs :=
  { CreateFunc := none
    UpdateFunc := some (fun _ mNew => mNew.deletionTimestampIsZero)
    DeleteFunc := some (fun _ => false)
    GenericFunc := none }

/-- Returns `true` exactly on `createCall` entries, for trace filtering. -/
def Call.isCreateCall : Call → Bool
  | Call.createCall _ => true
  | _ => false

/-- The create-call subtrace of a pass. -/
def createCalls (t : List Call) : List Call :=
  t.filter Call.isCreateCall

/-! Concrete collaborator instantiations, used to evaluate the theorems on
closed inputs. -/

/-- A concrete Quarkus-flavored instance. -/
def instQ : KogitoRuntimeInstance := ⟨"app", "ns1", "quarkus"⟩

/-- A concrete reconciliation request. -/
def req0 : Request := ⟨"app", "ns1"⟩

/-- Collaborators over the trivial state: fetch finds `instQ`, creates and
mount succeed, deploy asks for a 30-unit requeue. -/
def okCollab : Collab Unit :=
  { fetch := fun _ _ _ => Except.ok (some instQ)
    createIfNotExists := fun s _ => (s, none)
    mountProtoBufConfigMapOnDataIndex := fun s _ => (s, none)
    deploy := fun s _ _ => (s, Except.ok 30) }

/-- Collaborators whose fetch reports the instance absent. -/
def absentCollab : Collab Unit :=
  { fetch := fun _ _ _ => Except.ok none
    createIfNotExists := fun s _ => (s, none)
    mountProtoBufConfigMapOnDataIndex := fun s _ => (s, none)
    deploy := fun s _ _ => (s, Except.ok 0) }

/-- Collaborators whose fetch fails with a transport error. -/
def errCollab : Collab Unit :=
  { fetch := fun _ _ _ => Except.error ⟨"transport failure"⟩
    createIfNotExists := fun s _ => (s, none)
    mountProtoBufConfigMapOnDataIndex := fun s _ => (s, none)
    deploy := fun s _ _ => (s, Except.ok 0) }

/-! Helper lemmas about the bootstrap trace. -/

/-- Every call `setupRBAC` issues is a create call. -/
theorem setupRBAC_trace_creates {σ : Type} (c : Collab σ) (s : σ) (ns : String) :
    ∀ x ∈ (setupRBAC c s ns).2.2, x.isCreateCall = true := by
  unfold setupRBAC
  split
  · simp [Call.isCreateCall]
  · split
    · simp [Call.isCreateCall]
    · split <;> simp [Call.isCreateCall]

/-- A deploy call never appears in the bootstrap trace. -/
theorem deploy_not_mem_setupRBAC {σ : Type} (c : Collab σ) (s : σ) (ns : String)
    (defn : ServiceDefinition) (inst : KogitoRuntimeInstance) :
    Call.deployCall defn inst ∉ (setupRBAC c s ns).2.2 := by
  intro hmem
  have h := setupRBAC_trace_creates c s ns _ hmem
  simp [Call.isCreateCall] at h

/-- When `setupRBAC` succeeds, its trace is exactly the three creates in
order: role, service account, role binding. -/
theorem setupRBAC_none_trace {σ : Type} (c : Collab σ) (s : σ) (ns : String)
    (s₁ : σ) (t₁ : List Call) (h : setupRBAC c s ns = (s₁, none, t₁)) :
    t₁ = [Call.createCall (getServiceViewerRole ns),
          Call.createCall (getServiceViewerServiceAccount ns),
          Call.createCall (getServiceViewerRoleBinding ns)] := by
  unfold setupRBAC at h
  split at h
  · simp_all
  · split at h
    · simp_all
    · split at h
      · simp_all
      · simp_all

/-- The bootstrap trace is left fixed by the create-call filter. -/
theorem createCalls_setupRBAC {σ : Type} (c : Collab σ) (s : σ) (ns : String) :
    createCalls (setupRBAC c s ns).2.2 = (setupRBAC c s ns).2.2 := by
  refine List.filter_eq_self.mpr ?_
  exact setupRBAC_trace_creates c s ns

/-- Whenever the fetch finds an instance, the create calls of the whole
pass are exactly the create calls of `setupRBAC`. -/
theorem createCalls_reconcile {σ : Type} (c : Collab σ) (s : σ) (req : Request)
    (inst : KogitoRuntimeInstance)
    (hf : c.fetch s req.name req.nspace = Except.ok (some inst)) :
    createCalls (reconcile c s req).trace = (setupRBAC c s req.nspace).2.2 := by
  have hself := createCalls_setupRBAC c s req.nspace
  rcases hr : setupRBAC c s req.nspace with ⟨s₁, e₁, t₁⟩
  rw [hr] at hself
  simp only [createCalls] at hself ⊢
  rcases e₁ with _ | e
  · simp only [reconcile, hf, hr]
    split
    · simp_all [createCalls, Call.isCreateCall]
    · split
      · simp_all [createCalls, Call.isCreateCall]
      · split <;> simp_all [createCalls, Call.isCreateCall]
  · simp only [reconcile, hf, hr]
    simp_all [createCalls, Call.isCreateCall]

/-! The claims. -/

/-- C3: the event-admission predicate for the Runtime Declaration watch
suppresses every delete event, admits an update event exactly when the new
object's deletion timestamp is zero, and admits every create event. -/
theorem runtimePred_admission (m₁ m₂ mo mn : ObjectMeta) :
    kogitoRuntimePred.eval (Event.delete m₁) = false ∧
    kogitoRuntimePred.eval (Event.update mo mn) = mn.deletionTimestampIsZero ∧
    kogitoRuntimePred.eval (Event.create m₂) = true :=
  ⟨rfl, rfl, rfl⟩

/-- C9: a generic watch event is admitted: the predicate overrides only the
delete and update callbacks, so generic events fall to the library default,
which admits them. -/
theorem runtimePred_generic_admitted (m : ObjectMeta) :
    kogitoRuntimePred.eval (Event.generic m) = true :=
  rfl

/-- C4: when the fetch reports the instance absent with no error, the pass
returns the zero result with no error, leaves the state unchanged, and
issues no bootstrap create, no mount propagation and no delegate call (its
trace is the fetch alone). -/
theorem absence_short_circuit {σ : Type} (c : Collab σ) (s : σ) (req : Request)
    (hf : c.fetch s req.name req.nspace = Except.ok none) :
    reconcile c s req =
      ⟨s, zeroResult, none, [Call.fetchCall req.name req.nspace]⟩ := by
  simp [reconcile, hf]

/-- C4 witness. -/
theorem absence_short_circuit_witness :
    reconcile absentCollab () req0 =
      ⟨(), zeroResult, none, [Call.fetchCall req0.name req0.nspace]⟩ :=
  absence_short_circuit absentCollab () req0 rfl

/-- C2: when the pass reaches the delegate and the delegate returns
duration `d` with no error, a positive `d` yields a non-error result that
requeues after exactly `d`, and `d = 0` yields a plain success with the
zero result. -/
theorem requeue_semantics {σ : Type} (c : Collab σ) (s : σ) (req : Request)
    (inst : KogitoRuntimeInstance) (s₁ s₂ s₃ : σ) (t₁ : List Call) (d : Int)
    (hf : c.fetch s req.name req.nspace = Except.ok (some inst))
    (hr : setupRBAC c s req.nspace = (s₁, none, t₁))
    (hm : c.mountProtoBufConfigMapOnDataIndex s₁ inst = (s₂, none))
    (hd : c.deploy s₂ (serviceDefinition req inst) inst = (s₃, Except.ok d)) :
    (0 < d →
      (reconcile c s req).result = ⟨true, d⟩ ∧
      (reconcile c s req).err = none) ∧
    (d = 0 →
      (reconcile c s req).result = zeroResult ∧
      (reconcile c s req).err = none) := by
  constructor
  · intro hpos
    simp [reconcile, hf, hr, hm, hd, hpos]
  · intro hzero
    subst hzero
    simp [reconcile, hf, hr, hm, hd]

/-- C2 witness: the concrete collaborators deploy with a 30-unit hint. -/
theorem requeue_semantics_witness :
    (reconcile okCollab () req0).result = ⟨true, 30⟩ ∧
    (reconcile okCollab () req0).err = none :=
  (requeue_semantics okCollab () req0 instQ () () () _ 30
    rfl rfl rfl rfl).1 (by decide)

/-- C8: every result `Reconcile` returns keeps the requeue flag consistent
with the delay (the flag is set exactly when the delay is positive), and
every error return carries the zero result. -/
theorem result_invariant {σ : Type} (c : Collab σ) (s : σ) (req : Request) :
    ((reconcile c s req).result.Requeue = true ↔
      0 < (reconcile c s req).result.RequeueAfter) ∧
    ((reconcile c s req).err.isSome = true →
      (reconcile c s req).result = zeroResult) := by
  unfold reconcile
  split
  · simp [zeroResult]
  · simp [zeroResult]
  · split
    · simp [zeroResult]
    · split
      · simp [zeroResult]
      · split
        · simp [zeroResult]
        · split
          · simp_all
          · simp_all [zeroResult]

/-- C8 witness: the error-return conjunct evaluated on a failing fetch. -/
theorem result_invariant_witness :
    (reconcile errCollab () req0).result = zeroResult :=
  (result_invariant errCollab () req0).2 rfl

/-- C6: a pass that reaches the bootstrap and whose creates all return
(success or pre-existence, i.e. no error) issues exactly one create per
object, in the fixed order role, service account, role binding — in
particular the role binding is attempted only after the other two calls
have returned. -/
theorem bootstrap_once_ordered {σ : Type} (c : Collab σ) (s : σ) (req : Request)
    (inst : KogitoRuntimeInstance) (s₁ : σ) (t₁ : List Call)
    (hf : c.fetch s req.name req.nspace = Except.ok (some inst))
    (hr : setupRBAC c s req.nspace = (s₁, none, t₁)) :
    createCalls (reconcile c s req).trace =
      [Call.createCall (getServiceViewerRole req.nspace),
       Call.createCall (getServiceViewerServiceAccount req.nspace),
       Call.createCall (getServiceViewerRoleBinding req.nspace)] := by
  have h := createCalls_reconcile c s req inst hf
  rw [hr] at h
  rw [h]
  exact setupRBAC_none_trace c s req.nspace s₁ t₁ hr

/-- C6 witness. -/
theorem bootstrap_once_ordered_witness :
    createCalls (reconcile okCollab () req0).trace =
      [Call.createCall (getServiceViewerRole req0.nspace),
       Call.createCall (getServiceViewerServiceAccount req0.nspace),
       Call.createCall (getServiceViewerRoleBinding req0.nspace)] :=
  bootstrap_once_ordered okCollab () req0 instQ () _ rfl rfl

/-- C10: the bootstrap's create calls depend only on the request's
namespace: two passes from the same state whose requests share a namespace
(whatever their names and fetched instances) issue identical create
calls. -/
theorem rbac_namespace_noninterference {σ : Type} (c : Collab σ) (s : σ)
    (req₁ req₂ : Request) (inst₁ inst₂ : KogitoRuntimeInstance)
    (hns : req₁.nspace = req₂.nspace)
    (h₁ : c.fetch s req₁.name req₁.nspace = Except.ok (some inst₁))
    (h₂ : c.fetch s req₂.name req₂.nspace = Except.ok (some inst₂)) :
    createCalls (reconcile c s req₁).trace =
      createCalls (reconcile c s req₂).trace := by
  rw [createCalls_reconcile c s req₁ inst₁ h₁,
      createCalls_reconcile c s req₂ inst₂ h₂, hns]

/-- A second concrete request: different name, same namespace as `req0`. -/
def reqB : Request := ⟨"other", "ns1"⟩

/-- C10 witness. -/
theorem rbac_namespace_noninterference_witness :
    createCalls (reconcile okCollab () req0).trace =
      createCalls (reconcile okCollab () reqB).trace :=
  rbac_namespace_noninterference okCollab () req0 reqB instQ instQ
    rfl rfl rfl

/-- C5: every step failure aborts the pass at once: the failing step's
error is returned unchanged, no later collaborator call is issued, nothing
already done is rolled back (the trace ends at the failing call), and the
returned result is the zero result (no requeue).  One conjunct per fallible
step: fetch, the three creates, the mount, the deploy. -/
theorem fail_fast {σ : Type} (c : Collab σ) (s : σ) (req : Request) :
    (∀ e, c.fetch s req.name req.nspace = Except.error e →
      reconcile c s req =
        ⟨s, zeroResult, some e, [Call.fetchCall req.name req.nspace]⟩) ∧
    (∀ inst s₁ e, c.fetch s req.name req.nspace = Except.ok (some inst) →
      c.createIfNotExists s (getServiceViewerRole req.nspace) = (s₁, some e) →
      reconcile c s req =
        ⟨s₁, zeroResult, some e,
          [Call.fetchCall req.name req.nspace,
           Call.createCall (getServiceViewerRole req.nspace)]⟩) ∧
    (∀ inst s₁ s₂ e, c.fetch s req.name req.nspace = Except.ok (some inst) →
      c.createIfNotExists s (getServiceViewerRole req.nspace) = (s₁, none) →
      c.createIfNotExists s₁ (getServiceViewerServiceAccount req.nspace) =
        (s₂, some e) →
      reconcile c s req =
        ⟨s₂, zeroResult, some e,
          [Call.fetchCall req.name req.nspace,
           Call.createCall (getServiceViewerRole req.nspace),
           Call.createCall (getServiceViewerServiceAccount req.nspace)]⟩) ∧
    (∀ inst s₁ s₂ s₃ e, c.fetch s req.name req.nspace = Except.ok (some inst) →
      c.createIfNotExists s (getServiceViewerRole req.nspace) = (s₁, none) →
      c.createIfNotExists s₁ (getServiceViewerServiceAccount req.nspace) =
        (s₂, none) →
      c.createIfNotExists s₂ (getServiceViewerRoleBinding req.nspace) =
        (s₃, some e) →
      reconcile c s req =
        ⟨s₃, zeroResult, some e,
          [Call.fetchCall req.name req.nspace,
           Call.createCall (getServiceViewerRole req.nspace),
           Call.createCall (getServiceViewerServiceAccount req.nspace),
           Call.createCall (getServiceViewerRoleBinding req.nspace)]⟩) ∧
    (∀ inst s₁ t₁ s₂ e, c.fetch s req.name req.nspace = Except.ok (some inst) →
      setupRBAC c s req.nspace = (s₁, none, t₁) →
      c.mountProtoBufConfigMapOnDataIndex s₁ inst = (s₂, some e) →
      reconcile c s req =
        ⟨s₂, zeroResult, some e,
          Call.fetchCall req.name req.nspace :: t₁ ++ [Call.mountCall inst]⟩) ∧
    (∀ inst s₁ t₁ s₂ s₃ e, c.fetch s req.name req.nspace = Except.ok (some inst) →
      setupRBAC c s req.nspace = (s₁, none, t₁) →
      c.mountProtoBufConfigMapOnDataIndex s₁ inst = (s₂, none) →
      c.deploy s₂ (serviceDefinition req inst) inst = (s₃, Except.error e) →
      reconcile c s req =
        ⟨s₃, zeroResult, some e,
          Call.fetchCall req.name req.nspace :: t₁ ++
            [Call.mountCall inst,
             Call.deployCall (serviceDefinition req inst) inst]⟩) := by
  refine ⟨?_, ?_, ?_, ?_, ?_, ?_⟩
  · intro e hf
    simp [reconcile, hf]
  · intro inst s₁ e hf h1
    simp [reconcile, setupRBAC, hf, h1]
  · intro inst s₁ s₂ e hf h1 h2
    simp [reconcile, setupRBAC, hf, h1, h2]
  · intro inst s₁ s₂ s₃ e hf h1 h2 h3
    simp [reconcile, setupRBAC, hf, h1, h2, h3]
  · intro inst s₁ t₁ s₂ e hf hr hm
    simp [reconcile, hf, hr, hm]
  · intro inst s₁ t₁ s₂ s₃ e hf hr hm hd
    simp [reconcile, hf, hr, hm, hd]

/-- C5 witness: the fetch-error conjunct evaluated on a failing fetch. -/
theorem fail_fast_witness :
    reconcile errCollab () req0 =
      ⟨(), zeroResult, some ⟨"transport failure"⟩,
        [Call.fetchCall req0.name req0.nspace]⟩ :=
  (fail_fast errCollab () req0).1 ⟨"transport failure"⟩ rfl

/-- Inversion: a deploy call in a pass's trace is the one the pass built,
for the instance the fetch returned and with the definition literal of the
source. -/
theorem deployCall_mem_reconcile {σ : Type} (c : Collab σ) (s : σ)
    (req : Request) (defn : ServiceDefinition) (inst : KogitoRuntimeInstance)
    (h : Call.deployCall defn inst ∈ (reconcile c s req).trace) :
    c.fetch s req.name req.nspace = Except.ok (some inst) ∧
      defn = serviceDefinition req inst := by
  rcases hfe : c.fetch s req.name req.nspace with e | oinst
  · simp [reconcile, hfe] at h
  · rcases oinst with _ | inst₀
    · simp [reconcile, hfe] at h
    · rcases hr : setupRBAC c s req.nspace with ⟨s₁, e₁, t₁⟩
      have hnd := deploy_not_mem_setupRBAC c s req.nspace defn inst
      rw [hr] at hnd
      rcases e₁ with _ | e
      · rcases hm : c.mountProtoBufConfigMapOnDataIndex s₁ inst₀ with ⟨s₂, e₂⟩
        rcases e₂ with _ | e
        · rcases hd : c.deploy s₂ (serviceDefinition req inst₀) inst₀
            with ⟨s₃, r⟩
          rcases r with e | dur
          · simp [reconcile, hfe, hr, hm, hd] at h
            rcases h with h | ⟨hdefn, hinst⟩
            · exact absurd h hnd
            · subst hdefn; subst hinst; exact ⟨rfl, rfl⟩
          · by_cases hdur : (0 : Int) < dur
            · simp [reconcile, hfe, hr, hm, hd, hdur] at h
              rcases h with h | ⟨hdefn, hinst⟩
              · exact absurd h hnd
              · subst hdefn; subst hinst; exact ⟨rfl, rfl⟩
            · simp [reconcile, hfe, hr, hm, hd, hdur] at h
              rcases h with h | ⟨hdefn, hinst⟩
              · exact absurd h hnd
              · subst hdefn; subst hinst; exact ⟨rfl, rfl⟩
        · simp [reconcile, hfe, hr, hm] at h
          exact absurd h hnd
      · simp [reconcile, hfe, hr] at h
        exact absurd h hnd

/-- C7: the health-check probe placed in the service definition handed to
the delegate is selected purely by the fetched instance's runtime-type:
the Quarkus probe exactly for the Quarkus runtime type, the raw TCP probe
for every other value. -/
theorem probe_selected_by_runtime {σ : Type} (c : Collab σ) (s : σ)
    (req : Request) (defn : ServiceDefinition) (inst : KogitoRuntimeInstance)
    (h : Call.deployCall defn inst ∈ (reconcile c s req).trace) :
    (inst.runtime = QuarkusRuntimeType →
      defn.HealthCheckProbe = HealthCheckProbeType.QuarkusHealthCheckProbe) ∧
    (inst.runtime ≠ QuarkusRuntimeType →
      defn.HealthCheckProbe = HealthCheckProbeType.TCPHealthCheckProbe) := by
  obtain ⟨-, hdefn⟩ := deployCall_mem_reconcile c s req defn inst h
  subst hdefn
  constructor <;> intro hq <;>
    simp [serviceDefinition, healthCheckProbeFor, hq]

/-- C7 witness: the Quarkus branch, evaluated on the concrete pass. -/
theorem probe_selected_by_runtime_witness :
    (serviceDefinition req0 instQ).HealthCheckProbe =
      HealthCheckProbeType.QuarkusHealthCheckProbe :=
  (probe_selected_by_runtime okCollab () req0
    (serviceDefinition req0 instQ) instQ (by decide)).1 rfl

/-- C1: a second pass is observably a no-op.  Hypotheses: the first pass
from `s₀` finished without error in state `s₁`; the pass did not change
the fetched Runtime Declaration (and nothing external did); and at `s₁`
the collaborators honor their contracts — the three idempotent-creates
succeed silently without touching the state, the mount propagation is a
no-op, and the delegate deploy is a no-op returning no error.  Then the
second pass leaves the cluster state exactly `s₁` (no duplicate creation,
nothing new) and returns no error: two runs produce the state of one. -/
theorem reconcile_idempotent {σ : Type} (c : Collab σ) (s₀ : σ) (req : Request)
    (s₁ : σ) (r₁ : CtrlResult) (t₁ : List Call)
    (h1 : reconcile c s₀ req = ⟨s₁, r₁, none, t₁⟩)
    (hfetch : c.fetch s₁ req.name req.nspace = c.fetch s₀ req.name req.nspace)
    (hrole :
      c.createIfNotExists s₁ (getServiceViewerRole req.nspace) = (s₁, none))
    (hsa :
      c.createIfNotExists s₁ (getServiceViewerServiceAccount req.nspace) =
        (s₁, none))
    (hrb :
      c.createIfNotExists s₁ (getServiceViewerRoleBinding req.nspace) =
        (s₁, none))
    (hmount : ∀ inst,
      c.fetch s₀ req.name req.nspace = Except.ok (some inst) →
      c.mountProtoBufConfigMapOnDataIndex s₁ inst = (s₁, none))
    (hdeploy : ∀ inst,
      c.fetch s₀ req.name req.nspace = Except.ok (some inst) →
      ∃ d, c.deploy s₁ (serviceDefinition req inst) inst =
        (s₁, Except.ok d)) :
    (reconcile c s₁ req).state = s₁ ∧ (reconcile c s₁ req).err = none := by
  rcases hfe : c.fetch s₀ req.name req.nspace with e | oinst
  · simp [reconcile, hfe] at h1
  · rcases oinst with _ | inst
    · simp [reconcile, hfetch, hfe]
    · obtain ⟨d, hd⟩ := hdeploy inst hfe
      have hm := hmount inst hfe
      have hrbac : setupRBAC c s₁ req.nspace =
          (s₁, none,
            [Call.createCall (getServiceViewerRole req.nspace),
             Call.createCall (getServiceViewerServiceAccount req.nspace),
             Call.createCall (getServiceViewerRoleBinding req.nspace)]) := by
        simp [setupRBAC, hrole, hsa, hrb]
      by_cases hdur : (0 : Int) < d
      · simp [reconcile, hfetch, hfe, hrbac, hm, hd, hdur]
      · simp [reconcile, hfetch, hfe, hrbac, hm, hd, hdur]

/-- C1 witness: both passes of the concrete collaborators from the trivial
state. -/
theorem reconcile_idempotent_witness :
    (reconcile okCollab () req0).state = () ∧
    (reconcile okCollab () req0).err = none :=
  reconcile_idempotent okCollab () req0 () ⟨true, 30⟩ _ rfl rfl rfl rfl rfl
    (fun _ _ => rfl) (fun _ _ => ⟨30, rfl⟩)

end KogitoRuntime
